import Mathlib

/-!
Verification development for the VirtualBox `configure.py` pre-build
dependency-probing script.  The Python source is shallowly embedded:
pure string manipulation is translated directly; filesystem and
subprocess effects are abstracted into explicit oracle records (`FS`,
compile results) that each function consumes.  Path joining follows the
POSIX convention of the reference host (`os.sep` is a slash).
-/

/-! ## Build target constants (class `BuildTarget`, configure.py lines 103-115) -/

def BuildTarget.ANY : String := "any"

def BuildTarget.LINUX : String := "linux"

def BuildTarget.WINDOWS : String := "win"

def BuildTarget.DARWIN : String := "darwin"

def BuildTarget.SOLARIS : String := "solaris"

def BuildTarget.BSD : String := "bsd"

def BuildTarget.HAIKU : String := "haiku"

def BuildTarget.UNKNOWN : String := "unknown"

/-! ## String helpers for the embedding -/

/-- Python `c in h` on strings: `c` occurs in `h` as a substring. -/
def strContains (hay needle : String) : Bool :=
  decide (List.IsInfix needle.data hay.data)

/-- Truthiness of `g_oEnv[key]` in Python: a missing key is `None` (falsy),
a present key is truthy exactly when the string is non-empty. -/
def truthy (v : Option String) : Bool :=
  match v with
  | some s => s != ""
  | none => false

/-- Embedding of `os.path.join` under the POSIX separator convention. -/
def ospJoin (a b : String) : String := a ++ "/" ++ b

/-- Embedding of `os.path.basename(os.path.normpath(p))`: trailing slashes
are stripped (the normalisation relevant to glob results) and the last
path component is returned. -/
def basenameNorm (p : String) : String :=
  let cs := (p.data.reverse.dropWhile (fun c => c = '/'))
  String.mk ((cs.takeWhile (fun c => c ≠ '/')).reverse)

/-- Embedding of `os.path.relpath(p, root)` for the case arising in
`performCheck`, where `p` is a glob result lying underneath `root`: the
root prefix and its separator are removed. -/
def relpath (p root : String) : String :=
  if List.isPrefixOf (root ++ "/").data p.data then String.mk (p.data.drop (root.length + 1))
  else p

/-- Embedding of `re.search(r'-([\d\.]+)$', s)` in `performCheck`: the
match group is the maximal non-empty trailing run of digits and dots,
provided the character just before it is a dash. -/
def parseTrailingVersion (s : String) : Option String :=
  let rcs := s.data.reverse
  let ver := rcs.takeWhile (fun c => c.isDigit || c = '.')
  let rest := rcs.drop ver.length
  if ver ≠ [] ∧ rest.head? = some '-' then some (String.mk ver.reverse) else none

/-- A single-quote character, built numerically so the file stays free of
quote literals. -/
def singleQuote : String := String.singleton (Char.ofNat 39)

/-- Python `repr` of a string without escapes: the string between single
quotes. -/
def pyStrRepr (s : String) : String := singleQuote ++ s ++ singleQuote

/-- Python `repr` of a list of plain strings, as produced when a list is
interpolated into an f-string. -/
def pyListRepr (xs : List String) : String :=
  "[" ++ String.intercalate ", " (xs.map pyStrRepr) ++ "]"

/-! ## The configuration store (`EnvManager`, configure.py lines 1224-1363)

The Python store is `self.env`, a `str -> str` dict; it is embedded as a
function from keys to optional values.  `None`-able Python arguments are
embedded as `Option String`. -/

abbrev Env := String → Option String

/-- `EnvManager.set` (lines 1235-1245): a `None` value skips setting
altogether; any string value, including the empty string, is stored. -/
def EnvManager.set (env : Env) (sKey : String) (sVal : Option String) : Env :=
  match sVal with
  | none => env
  | some s => fun k => if k = sKey then some s else env k

/-- `EnvManager.unset` (lines 1247-1252): deletes the key if present. -/
def EnvManager.unset (env : Env) (sKey : String) : Env :=
  fun k => if k = sKey then none else env k

/-- `EnvManager.append` (lines 1254-1259). -/
def EnvManager.append (env : Env) (sKey : String) (sVal : String) : Env :=
  EnvManager.set env sKey
    (some (match env sKey with
           | some old => old ++ sVal
           | none => sVal))

/-- `EnvManager.prependPath` (lines 1261-1270): empty or `None` paths are
ignored; an absent key is set to the bare path; a present key receives
the new path, the platform delimiter, then the old value. -/
def EnvManager.prependPath (env : Env) (sKey : String) (sPath : Option String)
    (enmBuildTarget : String) : Env :=
  match sPath with
  | none => env
  | some p =>
    if p = "" then env
    else
      match env sKey with
      | none => EnvManager.set env sKey (some p)
      | some old =>
        let sDelim := if enmBuildTarget = BuildTarget.WINDOWS then ";" else ":"
        EnvManager.set env sKey (some (p ++ sDelim ++ old))

/-- A transform rule (a lambda of `envTransforms`): reads the store and
returns the dict of key overrides to apply (`{}` when the guard fails). -/
abbrev Rule := Env → List (String × String)

/-- `dict.update` with the pairs of a rule result, in order. -/
def updateMany (env : Env) (kvs : List (String × String)) : Env :=
  kvs.foldl (fun e kv => EnvManager.set e kv.1 (some kv.2)) env

/-- `EnvManager.transform` (lines 1350-1357): each rule is evaluated on the
current store and its dict result merged in, strictly in list order.  All
rules of this program return dicts, so the `isinstance` guard is always
taken. -/
def EnvManager.transform (rules : List Rule) (env : Env) : Env :=
  rules.foldl (fun e r => updateMany e (r e)) env

/-- Shape shared by every lambda of `envTransforms`:
`lambda env: kvs if cond(env) else {}`. -/
def envRule (c : Env → Bool) (kvs : List (String × String)) : Rule :=
  fun env => if c env then kvs else []

/-- The `envTransforms` rule list (configure.py lines 1790-1823).  Each
lambda reads the global store mid-mutation, which is exactly the store
`transform` passes along, so the conditions are written over the rule
argument. -/
def envTransforms : List Rule :=
  [ envRule (fun env => truthy (env "VBOX_ONLY_ADDITIONS") || (env "VBOX_WITH_DOCS" == some ""))
      [("VBOX_WITH_DOCS_PACKING", "")],
    envRule (fun env => truthy (env "VBOX_ONLY_ADDITIONS") || (env "VBOX_OSE" == some "1"))
      [("VBOX_WITH_EXTPACK_VNC", "")],
    envRule (fun env => truthy (env "VBOX_ONLY_ADDITIONS"))
      [("VBOX_WITH_WEBSERVICES", "")],
    envRule (fun env => truthy (env "VBOX_OSE"))
      [("VBOX_WITH_VALIDATIONKIT", ""), ("VBOX_WITH_WIN32_ADDITIONS", "")],
    envRule (fun env => truthy (env "VBOX_ONLY_ADDITIONS"))
      [("VBOX_WITH_EXTPACK_PUEL_BUILD", "")],
    envRule (fun env => truthy (env "CONFIG_LIBS_DISABLE_QT"))
      [("VBOX_WITH_QTGUI", "")],
    envRule (fun env => truthy (env "CONFIG_BUILD_HEADLESS"))
      [("VBOX_WITH_HEADLESS", "1"), ("VBOX_WITH_QTGUI", ""), ("VBOX_WITH_SECURELABEL", ""),
       ("VBOX_WITH_VMSVGA3D", ""), ("VBOX_WITH_3D_ACCELERATION", ""), ("VBOX_GUI_USE_QGL", "")],
    envRule (fun env => truthy (env "CONFIG_LIBS_DISABLE_LIBVPX"))
      [("VBOX_WITH_LIBVPX", ""), ("VBOX_WITH_RECORDING", "")],
    envRule (fun env => truthy (env "CONFIG_LIBS_DISABLE_LIBOGG") && truthy (env "CONFIG_LIBS_DISABLE_LIBVORBIS"))
      [("VBOX_WITH_LIBOGG", ""), ("VBOX_WITH_LIBVORBIS", ""), ("VBOX_WITH_AUDIO_RECORDING", "")],
    envRule (fun env => truthy (env "CONFIG_TOOLS_DISABLE_GSOAP"))
      [("VBOX_WITH_GSOAP", ""), ("VBOX_WITH_WEBSERVICES", "")],
    envRule (fun env => truthy (env "CONFIG_DISABLE_COM"))
      [("VBOX_WITH_MAIN", ""), ("VBOX_WITH_QTGUI", ""), ("VBOX_WITH_VBOXSDL", ""),
       ("VBOX_WITH_DEBUGGER_GUI", "")] ]

/-! ## Filesystem oracle and probe context -/

/-- Abstract view of the host filesystem as consulted by the probes:
`os.path.isfile`, `os.path.isdir`, `glob.glob` and `os.walk` (the walk
yields `(root, files)` pairs; subdirectory lists are unused). -/
structure FS where
  isFile : String → Bool
  isDir : String → Bool
  glob : String → List String
  walk : String → List (String × List String)

/-- `os.path.exists`: a file or a directory. -/
def pathExists (fs : FS) (p : String) : Bool := fs.isFile p || fs.isDir p

/-- Ambient run state of a probe: the filesystem, the global store
`g_oEnv`, `g_sScriptPath`, and the host value of
`getLinuxGnuTypeFromPlatform()`. -/
structure Ctx where
  fs : FS
  env : Env
  scriptPath : String
  gnuType : String

/-! ## Compiler-choice heuristic and test-code synthesis -/

/-- `hasCPPHeader` (configure.py lines 264-275), embedded exactly: the
candidate list is the C++ fragment list extended with the declared
headers themselves, and the test asks whether some non-empty member of
that combined list contains some member of the same list as a
substring. -/
def hasCPPHeader (asHeader : List String) : Bool :=
  if asHeader.length = 0 then false
  else
    let asCPPHdr := ["c++", "iostream", "Qt", "qt", "qglobal.h", "qcoreapplication.h"] ++ asHeader
    asCPPHdr.any (fun h => h != "" && asCPPHdr.any (fun c => strContains h c))

/-- Compiler choice of the global `compileAndExecute` (lines 302-305):
Windows always takes the configured C++ compiler, other targets choose
by `hasCPPHeader`. -/
def selectCompiler (enmBuildTarget : String) (env : Env) (asIncFiles : List String) : Option String :=
  if enmBuildTarget = BuildTarget.WINDOWS then env "config_cpp_compiler"
  else if hasCPPHeader asIncFiles then env "config_cpp_compiler"
  else env "config_c_compiler"

/-- The `LibraryCheck` object (configure.py lines 450-474): declared
artifacts plus the mutable probe state. -/
structure LibraryCheck where
  sName : String
  asIncFiles : List String := []
  asLibFiles : List String := []
  aeTargets : List String := []
  sCode : Option String := none
  aeTargetsExcluded : List String := []
  asAltIncFiles : List String := []
  fDisabled : Bool := false
  sCustomPath : Option String := none
  asIncPaths : Option (List String) := none
  asLibPaths : Option (List String) := none
  fHave : Option Bool := none
  sVer : Option String := none
  deriving DecidableEq

/-- `LibraryCheck.getTestCode` (lines 476-492).  Note that
`header = self.asIncFiles or ...` binds the whole Python list when
`asIncFiles` is non-empty, so the f-string interpolates the list repr. -/
def LibraryCheck.getTestCode (pr : LibraryCheck) : String :=
  let header : Option String :=
    if pr.asIncFiles ≠ [] then some (pyListRepr pr.asIncFiles)
    else
      match pr.asAltIncFiles with
      | a :: _ => some a
      | [] => none
  match header with
  | none => ""
  | some hdr =>
    match pr.sCode with
    | some code =>
      if hasCPPHeader pr.asIncFiles then "#include <iostream>\n" ++ code
      else "#include <stdio.h>\n" ++ code
    | none =>
      if hasCPPHeader pr.asIncFiles then
        "#include <" ++ hdr ++ ">\n#include <iostream>\nint main() \x7b std::cout << \"1\" << std::endl; return 0; \x7d\n"
      else
        "#include <" ++ hdr ++ ">\n#include <stdio.h>\nint main(void) \x7b printf(\"<found>\"); return 0; \x7d\n"

/-- The assignment `self.fHave = ...` on the probe. -/
def LibraryCheck.setHave (pr : LibraryCheck) (v : Option Bool) : LibraryCheck :=
  { pr with fHave := v }

/-- `LibraryCheck.compileAndExecute` (lines 494-504) post-processing of
the harness result: on success with non-empty captured stdout the stdout
becomes `sVer`. -/
def LibraryCheck.applyCompileResult (pr : LibraryCheck) (fRc : Bool) (sStdOut : Option String) : LibraryCheck :=
  if fRc && truthy sStdOut then { pr with sVer := sStdOut } else pr

/-! ## Search-path resolution -/

/-- Existing Windows drive roots, `[d+":" for d in "CDEF..." if exists]`. -/
def winRootDrives (fs : FS) : List String :=
  ("CDEFGHIJKLMNOPQRSTUVWXYZ".data.filter
      (fun d => pathExists fs (String.singleton d ++ ":"))).map
    (fun d => String.singleton d ++ ":")

/-- The custom-path walk of `getIncSearchPaths`/`getLibSearchPaths`: every
walk root whose file list contains a wanted artifact is prepended to the
accumulated path list. -/
def walkPrependPaths (fs : FS) (cp : String) (files : List String) (asPaths : List String) : List String :=
  files.foldl
    (fun acc f =>
      (fs.walk cp).foldl (fun acc2 rw => if rw.2.contains f then rw.1 :: acc2 else acc2) acc)
    asPaths

/-- `LibraryCheck.getIncSearchPaths` (lines 513-568). -/
def LibraryCheck.getIncSearchPaths (pr : LibraryCheck) (ctx : Ctx) : List String :=
  let asPaths : List String :=
    match pr.sCustomPath with
    | some cp => [cp]
    | none => [ospJoin (ospJoin ctx.scriptPath "src/libs") pr.sName]
  let asPaths := asPaths ++
    (if ctx.env "KBUILD_TARGET" == some BuildTarget.WINDOWS then
      (match ctx.env "VCPKG_ROOT" with
       | some root => if root != "" then [ospJoin (ospJoin root "packages") pr.sName] else []
       | none => []) ++
      (winRootDrives ctx.fs).flatMap
        (fun r =>
          [ospJoin r "\\msys64\\mingw64\\include", ospJoin r "\\msys64\\mingw32\\include",
           ospJoin r "\\include", "c:\\\\Program Files", "c:\\\\Program Files (x86)"])
    else
      ["/usr/include", "/usr/local/include",
       "/usr/include/" ++ ctx.gnuType, "/usr/local/include/" ++ ctx.gnuType,
       "/usr/include/" ++ pr.sName, "/usr/local/include/" ++ pr.sName,
       "/opt/include", "/opt/local/include"] ++
      (if ctx.env "KBUILD_TARGET" == some BuildTarget.DARWIN then ["/opt/homebrew/include"] else []))
  let asPaths :=
    match pr.sCustomPath with
    | some cp => walkPrependPaths ctx.fs cp pr.asIncFiles asPaths
    | none => asPaths
  let asPaths := asPaths ++ [ospJoin ctx.scriptPath "include"]
  asPaths.filter (fun p => ctx.fs.isDir p)

/-- `LibraryCheck.getLibSearchPaths` (lines 570-623). -/
def LibraryCheck.getLibSearchPaths (pr : LibraryCheck) (ctx : Ctx) : List String :=
  let asPaths : List String :=
    match pr.sCustomPath with
    | some cp => [ospJoin cp "lib"]
    | none => []
  let asPaths := asPaths ++ [ospJoin (ospJoin ctx.scriptPath "src/libs") pr.sName]
  let asPaths := asPaths ++
    (if ctx.env "KBUILD_TARGET" == some BuildTarget.WINDOWS then
      (match ctx.env "VCPKG_ROOT" with
       | some root => if root != "" then [ospJoin (ospJoin root "packages") pr.sName] else []
       | none => []) ++
      (winRootDrives ctx.fs).flatMap
        (fun r =>
          [ospJoin r "\\msys64\\mingw64\\lib", ospJoin r "\\msys64\\mingw32\\lib",
           ospJoin r "\\lib", "c:\\\\Program Files", "c:\\\\Program Files (x86)"])
    else if ctx.env "KBUILD_TARGET" == some BuildTarget.LINUX
         || ctx.env "KBUILD_TARGET" == some BuildTarget.SOLARIS then
      ["/usr/lib", "/usr/local/lib",
       "/usr/lib/" ++ ctx.gnuType, "/opt/local/lib/" ++ ctx.gnuType,
       "/usr/lib64", "/lib", "/lib64",
       "/opt/lib", "/opt/local/lib"]
    else
      ["/opt/homebrew/lib"])
  let asPaths :=
    match pr.sCustomPath with
    | some cp => walkPrependPaths ctx.fs cp pr.asLibFiles asPaths
    | none => asPaths
  asPaths.filter (fun p => pathExists ctx.fs p)

/-! ## Header and library checks -/

/-- One iteration of the header loop of `checkInc`: the header takes the
first search path containing it, that path is appended to `asIncPaths`,
and the header is recorded as found. -/
def checkIncStep (ctx : Ctx) (asSearchPaths : List String)
    (st : LibraryCheck × List String) (hdr : String) : LibraryCheck × List String :=
  match asSearchPaths.find? (fun p => ctx.fs.isFile (ospJoin p hdr)) with
  | some p => ({ st.1 with asIncPaths := some ((st.1.asIncPaths.getD []) ++ [p]) }, st.2 ++ [hdr])
  | none => st

/-- `LibraryCheck.checkInc` (lines 625-654): each header takes the first
search path containing it; success requires the found list to equal the
searched list.  The returned number counts `printError` calls that
increment the global error counter. -/
def LibraryCheck.checkInc (pr : LibraryCheck) (ctx : Ctx) : LibraryCheck × Bool × Nat :=
  if pr.asIncFiles = [] ∧ pr.asAltIncFiles = [] then (pr, true, 0)
  else
    let asHeaderToSearch := pr.asIncFiles ++ pr.asAltIncFiles
    let asSearchPaths := pr.getIncSearchPaths ctx
    let st := asHeaderToSearch.foldl (checkIncStep ctx asSearchPaths) (pr, [])
    if st.2 = asHeaderToSearch then (st.1, true, 0) else (st.1, false, 1)

/-- Library extensions per platform (`checkLib`, lines 663-669). -/
def libExtsFor (env : Env) : List String :=
  if env "KBUILD_TARGET" == some BuildTarget.WINDOWS then [".lib", ".dll", ".a", ".dll.a"]
  else if env "KBUILD_TARGET" == some BuildTarget.DARWIN then [".a", ".dylib", ".so"]
  else [".a", ".so"]

/-- The nested search loops of `checkLib` (lines 672-682): the first
search path whose glob for some declared base name with a wildcard
suffix and a platform extension hits an existing file, if any. -/
def LibraryCheck.libSearchHit (pr : LibraryCheck) (ctx : Ctx) : Option String :=
  (pr.getLibSearchPaths ctx).findSome?
    (fun sp =>
      pr.asLibFiles.findSome?
        (fun lib =>
          (libExtsFor ctx.env).findSome?
            (fun ext =>
              ((ctx.fs.glob (ospJoin sp (lib ++ "*" ++ ext))).find?
                  (fun f => ctx.fs.isFile f)).map (fun _ => sp))))

/-- `LibraryCheck.checkLib` (lines 656-689), embedded exactly: the nested
loops return `True` at the very first glob hit that is a file, recording
only that search path; `asLibFound` is never extended, so with a
non-empty `asLibFiles` the `asLibFound == asLibToSearch` branch is
unreachable and a miss costs one counted error. -/
def LibraryCheck.checkLib (pr : LibraryCheck) (ctx : Ctx) : LibraryCheck × Bool × Nat :=
  if pr.asLibFiles = [] then (pr, true, 0)
  else
    match pr.libSearchHit ctx with
    | some sp => ({ pr with asLibPaths := some ((pr.asLibPaths.getD []) ++ [sp]) }, true, 0)
    | none => (pr, false, 1)

/-! ## The probe state machine -/

/-- `g_oEnv['KBUILD_TARGET'] in list`: `None` is a member of no string list. -/
def targetIn (t : Option String) (l : List String) : Bool :=
  match t with
  | some s => l.contains s
  | none => false

/-- The in-tree glob of `performCheck` (lines 700-702), empty when a
custom path was supplied. -/
def LibraryCheck.inTreeMatches (pr : LibraryCheck) (ctx : Ctx) : List String :=
  match pr.sCustomPath with
  | some _ => []
  | none => ctx.fs.glob (ospJoin (ospJoin ctx.scriptPath "src/libs") (pr.sName ++ "-*"))

/-- Observable outcome of one `performCheck` run: the updated probe, the
returned value, which search/compile stages were entered, and how many
counted errors were recorded. -/
structure CheckOutcome where
  probe : LibraryCheck
  ret : Bool
  incInvoked : Bool
  libInvoked : Bool
  harnessInvoked : Bool
  errs : Nat

/-- `LibraryCheck.performCheck` (lines 691-723).  The outcome of the
compile-and-execute harness, were it invoked, is supplied as an oracle:
its success flag, its captured stdout, and the number of counted errors
it would print. -/
def LibraryCheck.performCheck (pr : LibraryCheck) (ctx : Ctx) (fRcHarness : Bool)
    (sOutHarness : Option String) (cHarnessErrs : Nat) : CheckOutcome :=
  if targetIn (ctx.env "KBUILD_TARGET") pr.aeTargetsExcluded then
    ⟨pr, true, false, false, false, 0⟩
  else if pr.fDisabled then
    ⟨pr, true, false, false, false, 0⟩
  else
    match pr.inTreeMatches ctx with
    | sCurMatch :: _ =>
      let pr1 := { pr with fHave := some true }
      let pr2 :=
        match parseTrailingVersion (basenameNorm sCurMatch) with
        | some v => { pr1 with sVer := some v }
        | none => pr1
      let pr3 := { pr2 with
        asIncPaths := some ((pr2.asIncPaths.getD []) ++ [relpath sCurMatch ctx.scriptPath]) }
      ⟨pr3, true, false, false, false, 0⟩
    | [] =>
      let pr0 := pr.setHave (some false)
      if targetIn (ctx.env "KBUILD_TARGET") pr0.aeTargets || pr0.aeTargets.contains BuildTarget.ANY then
        match pr0.checkInc ctx with
        | (prA, true, eInc) =>
          (match prA.checkLib ctx with
           | (prB, true, eLib) =>
             let prC := (prB.applyCompileResult fRcHarness sOutHarness).setHave (some fRcHarness)
             ⟨prC, fRcHarness, true, true, true,
              eInc + eLib + cHarnessErrs + (if fRcHarness then 0 else 1)⟩
           | (prB, false, eLib) =>
             ⟨prB, false, true, true, false, eInc + eLib + 1⟩)
        | (prA, false, eInc) =>
          ⟨prA, false, true, false, false, eInc + 1⟩
      else
        ⟨pr0, false, false, false, false, 0⟩

/-! ## Cleanup discipline of the global compile-and-execute harness -/

/-- Outcome of the compiler invocation inside `compileAndExecute`:
a return code of zero or not, or one of the caught exception classes.
Only a zero return produces the output binary. -/
inductive CompileStep
  | retZero
  | retNonZero
  | raisePermission
  | raiseFileNotFound
  | raiseSubprocess
  deriving DecidableEq

/-- Outcome of running the produced test binary. -/
inductive ExecStep
  | retZero
  | retNonZero
  | raiseSubprocess
  deriving DecidableEq

/-- Outcome of one `os.remove` call in the cleanup block (lines 397-401):
success, a `PermissionError` (swallowed by the inner handler, the loop
continues), or any other `OSError` such as `FileNotFoundError` (not
caught by the inner handler: it escapes to the outer `except OSError`,
aborting the rest of the cleanup including `os.rmdir`). -/
inductive RemoveOutcome
  | ok
  | raisePermission
  | raiseOther
  deriving DecidableEq

/-- Effect oracle for one run of the global `compileAndExecute`
(lines 292-407): debug flag `g_fDebug`, whether writing the temporary
source file succeeds (an `open` failure propagates out of the function),
the compile and execute outcomes, the outcome of each `os.remove`
attempt on a file that exists, and whether `os.rmdir` succeeds on an
emptied directory.  `removeImage` only applies when the compile returned
zero; otherwise no binary was produced and its removal necessarily
raises `FileNotFoundError`. -/
structure CEWorld where
  debug : Bool
  writeOk : Bool
  compile : CompileStep
  exec : ExecStep
  removeSource : RemoveOutcome
  removeImage : RemoveOutcome
  rmdirOk : Bool

/-- Observable exit facts of one `compileAndExecute` run: whether an
uncaught exception escaped, the returned success flag, and which of the
temporary source, binary and directory were actually removed. -/
structure CEResult where
  raised : Bool
  success : Bool
  sourceRemoved : Bool
  imageRemoved : Bool
  dirRemoved : Bool

/-- The cleanup loop from the image-removal attempt on (lines 397-402):
an `os.remove` on the never-produced binary raises `FileNotFoundError`,
which escapes to the outer handler and skips `os.rmdir`; a swallowed
`PermissionError` leaves the file, so the later `os.rmdir` on the
non-empty directory raises and is caught; `os.rmdir` succeeds only when
both files were actually removed. -/
def cleanupRest (w : CEWorld) (imageExists success srcRem : Bool) : CEResult :=
  match (if imageExists then w.removeImage else RemoveOutcome.raiseOther) with
  | RemoveOutcome.raiseOther => ⟨false, success, srcRem, false, false⟩
  | RemoveOutcome.raisePermission => ⟨false, success, srcRem, false, false⟩
  | RemoveOutcome.ok => ⟨false, success, srcRem, true, srcRem && w.rmdirOk⟩

/-- Exit-path and cleanup behaviour of the global `compileAndExecute`
(lines 292-407): the source write happens before the try block, so its
failure escapes with no cleanup; every caught path reaches the cleanup
block.  In non-debug mode the source (always written by then) is removed
first — a non-`PermissionError` failure there aborts the whole cleanup —
then the binary, which exists only when the compiler returned zero, so
on every compile-failure or compiler-exception path the removal attempt
raises `FileNotFoundError` and the temporary directory is never removed;
debug mode skips cleanup entirely. -/
def compileAndExecute (w : CEWorld) : CEResult :=
  if !w.writeOk then ⟨true, false, false, false, false⟩
  else
    let imageExists : Bool :=
      match w.compile with
      | CompileStep.retZero => true
      | _ => false
    let success :=
      match w.compile, w.exec with
      | CompileStep.retZero, ExecStep.retZero => true
      | _, _ => false
    if w.debug then ⟨false, success, false, false, false⟩
    else
      match w.removeSource with
      | RemoveOutcome.raiseOther => ⟨false, success, false, false, false⟩
      | RemoveOutcome.raisePermission => cleanupRest w imageExists success false
      | RemoveOutcome.ok => cleanupRest w imageExists success true

/-! ## Facts about the configuration store operations -/

/-- C10: `prependPath` with an empty or `None` path leaves the store
unchanged; with a non-empty path and an absent key it sets the key to
exactly that path with no delimiter; with a non-empty path and a present
key it sets the key to the new path, then a semicolon on the Windows
build target and a colon otherwise, then the previous value. -/
theorem prependPath_spec (env : Env) (k p t old : String) :
    (EnvManager.prependPath env k none t = env) ∧
    (EnvManager.prependPath env k (some "") t = env) ∧
    (p ≠ "" → env k = none →
      EnvManager.prependPath env k (some p) t = EnvManager.set env k (some p)) ∧
    (p ≠ "" → env k = some old →
      EnvManager.prependPath env k (some p) t =
        EnvManager.set env k (some (p ++ (if t = BuildTarget.WINDOWS then ";" else ":") ++ old))) := by
  refine ⟨rfl, by simp [EnvManager.prependPath], ?_, ?_⟩
  · intro hp h
    simp [EnvManager.prependPath, hp, h]
  · intro hp h
    simp [EnvManager.prependPath, hp, h]

/-- Store holding exactly `PATH=/old`, for exercising `prependPath`. -/
def envPW : Env := EnvManager.set (fun _ => none) "PATH" (some "/old")

/-- Witness for C10: prepending `/new` to an existing `PATH` on the Linux
target yields the colon-joined value. -/
theorem prependPath_spec_witness :
    EnvManager.prependPath envPW "PATH" (some "/new") BuildTarget.LINUX "PATH" = some "/new:/old" := by
  have h := (prependPath_spec envPW "PATH" "/new" BuildTarget.LINUX "/old").2.2.2
    (by decide) (by decide)
  rw [h]
  decide

/-- Store holding exactly `VBOX_ONLY_ADDITIONS=1`. -/
def envAdditionsOnly : Env := EnvManager.set (fun _ => none) "VBOX_ONLY_ADDITIONS" (some "1")

/-- C6 counterexample: running the transform rules on a store that only
sets `VBOX_ONLY_ADDITIONS=1` leaves `VBOX_WITH_DOCS_PACKING` present and
bound to the empty string, so it is false that every key present in the
store holds a non-empty string after every mutating operation of a run. -/
theorem store_holds_empty_value :
    EnvManager.transform envTransforms envAdditionsOnly "VBOX_WITH_DOCS_PACKING" = some "" ∧
    ¬ (∀ (k v : String),
        EnvManager.transform envTransforms envAdditionsOnly k = some v → v ≠ "") := by
  constructor
  · decide
  · intro h
    exact h "VBOX_WITH_DOCS_PACKING" "" (by decide) rfl

/-- C6 amended: `set` with a `None` value leaves the store unchanged and
`unset` removes the key while leaving all other keys untouched, but the
store does not maintain a non-empty-value invariant: `set` accepts and
stores the empty string (and the transform rules routinely do so). -/
theorem set_unset_behaviour :
    (∀ (env : Env) (k : String), EnvManager.set env k none = env) ∧
    (∀ (env : Env) (k : String), EnvManager.unset env k k = none) ∧
    (∀ (env : Env) (k k2 : String), k2 ≠ k → EnvManager.unset env k k2 = env k2) ∧
    (EnvManager.set (fun _ => none) "K" (some "") "K" = some "") := by
  refine ⟨fun env k => rfl, fun env k => by simp [EnvManager.unset],
    fun env k k2 h => by simp [EnvManager.unset, h], by decide⟩

/-- Witness for C6 (amended): unsetting a different key leaves an existing
binding intact. -/
theorem set_unset_behaviour_witness :
    EnvManager.unset (fun _ => some "x") "A" "B" = some "x" :=
  set_unset_behaviour.2.2.1 (fun _ => some "x") "A" "B" (by decide)

/-! ## The compiler-choice heuristic -/

/-- Store configuring `gcc` and `g++` as the C and C++ compilers. -/
def envCompilers : Env :=
  fun k =>
    if k = "config_cpp_compiler" then some "g++"
    else if k = "config_c_compiler" then some "gcc" else none

/-- C3: at the failing input `['zlib.h']` — a non-empty header list with
no C++-only fragment — `hasCPPHeader` returns `True`, because the header
list is appended to the fragment list and every non-empty string of the
combined list contains itself, so on a non-Windows target the C++
compiler is selected where the C compiler was intended. -/
theorem hasCPPHeader_true_on_zlib :
    hasCPPHeader ["zlib.h"] = true ∧
    selectCompiler BuildTarget.LINUX envCompilers ["zlib.h"] = some "g++" := by
  constructor <;> decide

/-! ## Test-code synthesis -/

/-- A zlib-style probe that supplies no custom test code. -/
def zlibNoCustomCode : LibraryCheck :=
  { sName := "zlib", asIncFiles := ["zlib.h"], asLibFiles := ["libz"],
    aeTargets := [BuildTarget.ANY] }

/-- C5: at the failing input (no custom code, declared header list
`['zlib.h']`), `getTestCode` interpolates the Python list repr into the
include line, producing `#include <['zlib.h']>` rather than an include
of the declared header name, and — through the always-true
`hasCPPHeader` — the C++ body printing the digit 1, never the C body
with the found-marker. -/
theorem getTestCode_interpolates_list_repr :
    zlibNoCustomCode.getTestCode =
      "#include <[" ++ singleQuote ++ "zlib.h" ++ singleQuote ++
        "]>\n#include <iostream>\nint main() \x7b std::cout << \"1\" << std::endl; return 0; \x7d\n" ∧
    zlibNoCustomCode.getTestCode ≠
      "#include <zlib.h>\n#include <stdio.h>\nint main(void) \x7b printf(\"<found>\"); return 0; \x7d\n" ∧
    zlibNoCustomCode.getTestCode ≠
      "#include <zlib.h>\n#include <iostream>\nint main() \x7b std::cout << \"1\" << std::endl; return 0; \x7d\n" := by
  refine ⟨?_, ?_, ?_⟩ <;> decide

/-! ## Cleanup discipline of the harness -/

/-- Oracle for a non-debug run whose compile fails while every removal a
file actually permits would succeed. -/
def ceWorldCompileFail : CEWorld :=
  { debug := false, writeOk := true, compile := CompileStep.retNonZero, exec := ExecStep.retZero,
    removeSource := RemoveOutcome.ok, removeImage := RemoveOutcome.ok, rmdirOk := true }

/-- C7 counterexample: outside debug mode, a compile-failure run that
returns normally never removes the temporary directory — the binary was
never produced, its `os.remove` raises `FileNotFoundError`, and the
outer `except OSError` skips `os.rmdir` — so removal of the temporary
directory on every exit path is false on the compile-failure exit path. -/
theorem cleanup_not_guaranteed :
    ceWorldCompileFail.debug = false ∧
    ceWorldCompileFail.compile = CompileStep.retNonZero ∧
    (compileAndExecute ceWorldCompileFail).raised = false ∧
    (compileAndExecute ceWorldCompileFail).sourceRemoved = true ∧
    (compileAndExecute ceWorldCompileFail).imageRemoved = false ∧
    (compileAndExecute ceWorldCompileFail).dirRemoved = false :=
  ⟨rfl, rfl, rfl, rfl, rfl, rfl⟩

/-- C7 amended: outside debug mode, on every exit path reached through
the try block the cleanup block runs; when the compile returned zero (so
the binary exists) and each removal and the rmdir succeed, the source,
the binary and the fresh temporary directory are all removed before the
function returns, for every execute outcome — success, execution
failure, or a caught subprocess exception.  When the compile failed or
the compiler raised, no binary exists: the source is still removed (if
its removal succeeds) but the removal of the never-produced binary
raises `FileNotFoundError` and the temporary directory is always leaked.
Removals hitting `PermissionError` are skipped, and an exception while
writing the source escapes before any cleanup. -/
theorem cleanup_exit_paths (w : CEWorld)
    (hd : w.debug = false) (hw : w.writeOk = true) :
    (w.compile = CompileStep.retZero → w.removeSource = RemoveOutcome.ok →
      w.removeImage = RemoveOutcome.ok → w.rmdirOk = true →
      (compileAndExecute w).raised = false ∧
      (compileAndExecute w).sourceRemoved = true ∧
      (compileAndExecute w).imageRemoved = true ∧
      (compileAndExecute w).dirRemoved = true) ∧
    (w.compile ≠ CompileStep.retZero → w.removeSource = RemoveOutcome.ok →
      (compileAndExecute w).raised = false ∧
      (compileAndExecute w).sourceRemoved = true ∧
      (compileAndExecute w).imageRemoved = false ∧
      (compileAndExecute w).dirRemoved = false) := by
  constructor
  · intro hc hs hi hr
    simp [compileAndExecute, cleanupRest, hd, hw, hc, hs, hi, hr]
  · intro hc hs
    cases hcp : w.compile with
    | retZero => exact absurd hcp hc
    | retNonZero => simp [compileAndExecute, cleanupRest, hd, hw, hs, hcp]
    | raisePermission => simp [compileAndExecute, cleanupRest, hd, hw, hs, hcp]
    | raiseFileNotFound => simp [compileAndExecute, cleanupRest, hd, hw, hs, hcp]
    | raiseSubprocess => simp [compileAndExecute, cleanupRest, hd, hw, hs, hcp]

/-- Witness for C7 (amended): an execution-failure run with a produced
binary and clean removals removes everything, while a compile-failure
run with a clean source removal leaks the directory. -/
theorem cleanup_exit_paths_witness :
    (compileAndExecute
        { debug := false, writeOk := true, compile := CompileStep.retZero,
          exec := ExecStep.retNonZero, removeSource := RemoveOutcome.ok,
          removeImage := RemoveOutcome.ok, rmdirOk := true }).dirRemoved = true ∧
    (compileAndExecute
        { debug := false, writeOk := true, compile := CompileStep.raiseFileNotFound,
          exec := ExecStep.retZero, removeSource := RemoveOutcome.ok,
          removeImage := RemoveOutcome.ok, rmdirOk := true }).dirRemoved = false :=
  ⟨((cleanup_exit_paths _ rfl rfl).1 rfl rfl rfl rfl).2.2.2,
   ((cleanup_exit_paths _ rfl rfl).2 (by decide) rfl).2.2.2⟩

/-! ## Generic facts about `updateMany` and `transform` -/

/-- Setting a key to the value it already holds changes nothing. -/
theorem EnvManager.set_fix (e : Env) (k v : String) (h : e k = some v) :
    EnvManager.set e k (some v) = e := by
  funext k2
  by_cases hk : k2 = k
  · subst hk; simp [EnvManager.set, h]
  · simp [EnvManager.set, hk]

/-- An update whose pairs all avoid key `k` leaves `k` unchanged. -/
theorem updateMany_get_ne (e : Env) (kvs : List (String × String)) (k : String)
    (h : ∀ kv ∈ kvs, kv.1 ≠ k) :
    updateMany e kvs k = e k := by
  induction kvs generalizing e with
  | nil => rfl
  | cons a t ih =>
    have ha : a.1 ≠ k := h a (List.mem_cons_self a t)
    have hstep : (EnvManager.set e a.1 (some a.2)) k = e k := by
      simp [EnvManager.set, Ne.symm ha]
    show updateMany (EnvManager.set e a.1 (some a.2)) t k = e k
    rw [ih _ (fun kv hm => h kv (List.mem_cons_of_mem _ hm))]
    exact hstep

/-- If every pair writing `k` writes the value `v`, and either `k`
already holds `v` or some pair writes `k`, then after the update `k`
holds `v`. -/
theorem updateMany_get (e : Env) (kvs : List (String × String)) (k v : String)
    (hcons : ∀ kv ∈ kvs, kv.1 = k → kv.2 = v)
    (hbase : e k = some v ∨ ∃ kv ∈ kvs, kv.1 = k) :
    updateMany e kvs k = some v := by
  induction kvs generalizing e with
  | nil =>
    rcases hbase with h | ⟨kv, hm, _⟩
    · exact h
    · cases hm
  | cons a t ih =>
    have hconsT : ∀ kv ∈ t, kv.1 = k → kv.2 = v :=
      fun kv hm => hcons kv (List.mem_cons_of_mem _ hm)
    show updateMany (EnvManager.set e a.1 (some a.2)) t k = some v
    by_cases ha : a.1 = k
    · apply ih _ hconsT
      left
      have hv : a.2 = v := hcons a (List.mem_cons_self a t) ha
      simp [EnvManager.set, ha, hv]
    · apply ih _ hconsT
      rcases hbase with h | ⟨kv, hm, hkv⟩
      · left
        simpa [EnvManager.set, Ne.symm ha] using h
      · rcases List.mem_cons.mp hm with rfl | hm2
        · exact absurd hkv ha
        · right; exact ⟨kv, hm2, hkv⟩

/-- An update all of whose pairs are already realised in the store is the
identity. -/
theorem updateMany_fix (e : Env) (kvs : List (String × String))
    (h : ∀ kv ∈ kvs, e kv.1 = some kv.2) :
    updateMany e kvs = e := by
  induction kvs with
  | nil => rfl
  | cons a t ih =>
    have h1 : EnvManager.set e a.1 (some a.2) = e :=
      EnvManager.set_fix e a.1 a.2 (h a (List.mem_cons_self a t))
    show updateMany (EnvManager.set e a.1 (some a.2)) t = e
    rw [h1]
    exact ih (fun kv hm => h kv (List.mem_cons_of_mem _ hm))

/-- The transform pipeline peels rules off in declaration order: the
first rule is evaluated on the incoming store and the remaining rules see
the updated store, not a frozen snapshot. -/
theorem transform_cons (r : Rule) (rs : List Rule) (env : Env) :
    EnvManager.transform (r :: rs) env = EnvManager.transform rs (updateMany env (r env)) := rfl

/-- A store on which every rule acts as the identity is a fixed point of
the pipeline. -/
theorem transform_fix (rules : List Rule) (e : Env)
    (h : ∀ r ∈ rules, updateMany e (r e) = e) :
    EnvManager.transform rules e = e := by
  induction rules with
  | nil => rfl
  | cons r rs ih =>
    rw [transform_cons, h r (List.mem_cons_self r rs)]
    exact ih (fun r2 hm => h r2 (List.mem_cons_of_mem _ hm))

/-- A key that no rule can ever write is preserved by the pipeline. -/
theorem transform_get_ne (rules : List Rule) (k : String)
    (h : ∀ r ∈ rules, ∀ (e2 : Env), ∀ kv ∈ r e2, kv.1 ≠ k) :
    ∀ e : Env, EnvManager.transform rules e k = e k := by
  induction rules with
  | nil => intro e; rfl
  | cons r rs ih =>
    intro e
    rw [transform_cons, ih (fun r2 hm => h r2 (List.mem_cons_of_mem _ hm))]
    exact updateMany_get_ne e (r e) k (h r (List.mem_cons_self r rs) e)

/-- If all rule outputs stay inside the write-key set `ws`, rules only
read outside `ws`, and every write of key `k` carries the same value
`v`, then running the pipeline on any store agreeing with `env` off `ws`
realises `k = v`, provided `k` already holds `v` or some rule fires a
`k`-write on `env`. -/
theorem transform_get_realized (ws : List String) (k v : String) :
    ∀ rules : List Rule,
      (∀ r ∈ rules, ∀ (e2 : Env), ∀ kv ∈ r e2, kv.1 ∈ ws) →
      (∀ r ∈ rules, ∀ (e1 e2 : Env), (∀ x, x ∉ ws → e1 x = e2 x) → r e1 = r e2) →
      (∀ r ∈ rules, ∀ (e2 : Env), ∀ kv ∈ r e2, kv.1 = k → kv.2 = v) →
      ∀ (env e : Env), (∀ x, x ∉ ws → e x = env x) →
        (e k = some v ∨ ∃ r ∈ rules, ∃ kv ∈ r env, kv.1 = k) →
        EnvManager.transform rules e k = some v := by
  intro rules
  induction rules with
  | nil =>
    intro _ _ _ env e _ hbase
    rcases hbase with h | ⟨r, hm, _⟩
    · exact h
    · cases hm
  | cons r rs ih =>
    intro hW hstable hcons env e hagree hbase
    rw [transform_cons]
    have hmem : r ∈ r :: rs := List.mem_cons_self r rs
    have hre : r e = r env := hstable r hmem e env hagree
    have hagree2 : ∀ x, x ∉ ws → updateMany e (r e) x = env x := by
      intro x hx
      rw [updateMany_get_ne e (r e) x (fun kv hm hEq => hx (hEq ▸ hW r hmem e kv hm))]
      exact hagree x hx
    apply ih (fun r2 hm => hW r2 (List.mem_cons_of_mem _ hm))
      (fun r2 hm => hstable r2 (List.mem_cons_of_mem _ hm))
      (fun r2 hm => hcons r2 (List.mem_cons_of_mem _ hm))
      env _ hagree2
    rcases hbase with h | ⟨r2, hm2, kv, hmkv, hkv⟩
    · left
      exact updateMany_get e (r e) k v (hcons r hmem e) (Or.inl h)
    · rcases List.mem_cons.mp hm2 with rfl | hm3
      · left
        apply updateMany_get e (r2 e) k v (hcons r2 hmem e)
        right
        refine ⟨kv, ?_, hkv⟩
        rw [hstable r2 hmem e env hagree]
        exact hmkv
      · right; exact ⟨r2, hm3, kv, hmkv, hkv⟩

/-! ## The concrete transform rule set -/

/-- Every key/value pair any `envTransforms` rule can emit. -/
def allTransformKvs : List (String × String) :=
  [("VBOX_WITH_DOCS_PACKING", ""), ("VBOX_WITH_EXTPACK_VNC", ""), ("VBOX_WITH_WEBSERVICES", ""),
   ("VBOX_WITH_VALIDATIONKIT", ""), ("VBOX_WITH_WIN32_ADDITIONS", ""),
   ("VBOX_WITH_EXTPACK_PUEL_BUILD", ""), ("VBOX_WITH_QTGUI", ""), ("VBOX_WITH_HEADLESS", "1"),
   ("VBOX_WITH_SECURELABEL", ""), ("VBOX_WITH_VMSVGA3D", ""), ("VBOX_WITH_3D_ACCELERATION", ""),
   ("VBOX_GUI_USE_QGL", ""), ("VBOX_WITH_LIBVPX", ""), ("VBOX_WITH_RECORDING", ""),
   ("VBOX_WITH_LIBOGG", ""), ("VBOX_WITH_LIBVORBIS", ""), ("VBOX_WITH_AUDIO_RECORDING", ""),
   ("VBOX_WITH_GSOAP", ""), ("VBOX_WITH_MAIN", ""), ("VBOX_WITH_VBOXSDL", ""),
   ("VBOX_WITH_DEBUGGER_GUI", "")]

/-- The keys the transform rules can write. -/
def transformWriteKeys : List String := allTransformKvs.map Prod.fst

/-- A pair emitted by an `envRule` comes from its pair list. -/
theorem envRule_mem {c : Env → Bool} {kvs : List (String × String)} {env : Env}
    {kv : String × String} (h : kv ∈ envRule c kvs env) : kv ∈ kvs := by
  unfold envRule at h
  split at h
  · exact h
  · cases h

/-- Transport a pair emitted by an `envRule` into `allTransformKvs`. -/
theorem envRule_writes {c : Env → Bool} {kvs : List (String × String)} {env : Env}
    {kv : String × String} (hsub : ∀ x ∈ kvs, x ∈ allTransformKvs)
    (h : kv ∈ envRule c kvs env) : kv ∈ allTransformKvs :=
  hsub kv (envRule_mem h)

/-- Every pair any rule of `envTransforms` emits is in `allTransformKvs`. -/
theorem envTransforms_writes :
    ∀ r ∈ envTransforms, ∀ (e2 : Env), ∀ kv ∈ r e2, kv ∈ allTransformKvs := by
  intro r hr e2 kv hkv
  simp only [envTransforms, List.mem_cons, List.not_mem_nil, or_false] at hr
  rcases hr with rfl|rfl|rfl|rfl|rfl|rfl|rfl|rfl|rfl|rfl|rfl <;>
    exact envRule_writes (by decide) hkv

/-- Any two writes of the same key across all rules carry the same value. -/
theorem allTransformKvs_consistent :
    ∀ a ∈ allTransformKvs, ∀ b ∈ allTransformKvs, a.1 = b.1 → a.2 = b.2 := by decide

/-- Rules of `envTransforms` only read keys no rule writes, hence are
stable under changes restricted to the write-key set. -/
theorem envTransforms_stable :
    ∀ r ∈ envTransforms, ∀ (e1 e2 : Env),
      (∀ x, x ∉ transformWriteKeys → e1 x = e2 x) → r e1 = r e2 := by
  intro r hr e1 e2 h
  simp only [envTransforms, List.mem_cons, List.not_mem_nil, or_false] at hr
  have h1 := h "VBOX_ONLY_ADDITIONS" (by decide)
  have h2 := h "VBOX_WITH_DOCS" (by decide)
  have h3 := h "VBOX_OSE" (by decide)
  have h4 := h "CONFIG_LIBS_DISABLE_QT" (by decide)
  have h5 := h "CONFIG_BUILD_HEADLESS" (by decide)
  have h6 := h "CONFIG_LIBS_DISABLE_LIBVPX" (by decide)
  have h7 := h "CONFIG_LIBS_DISABLE_LIBOGG" (by decide)
  have h8 := h "CONFIG_LIBS_DISABLE_LIBVORBIS" (by decide)
  have h9 := h "CONFIG_TOOLS_DISABLE_GSOAP" (by decide)
  have h10 := h "CONFIG_DISABLE_COM" (by decide)
  rcases hr with rfl|rfl|rfl|rfl|rfl|rfl|rfl|rfl|rfl|rfl|rfl <;>
    simp [envRule, h1, h2, h3, h4, h5, h6, h7, h8, h9, h10]

/-- C8: `transform` applies the rule list strictly in declaration order
with each rule reading the store as updated by the earlier rules, and for
a fixed input store applying the `envTransforms` pipeline twice yields
the same store as applying it once. -/
theorem transform_spec :
    (∀ (r : Rule) (rs : List Rule) (env : Env),
      EnvManager.transform (r :: rs) env = EnvManager.transform rs (updateMany env (r env))) ∧
    (∀ env : Env,
      EnvManager.transform envTransforms (EnvManager.transform envTransforms env) =
        EnvManager.transform envTransforms env) := by
  constructor
  · intro r rs env; rfl
  · intro env
    have hW : ∀ r ∈ envTransforms, ∀ (e2 : Env), ∀ kv ∈ r e2, kv.1 ∈ transformWriteKeys :=
      fun r hr e2 kv hkv => List.mem_map_of_mem Prod.fst (envTransforms_writes r hr e2 kv hkv)
    have hagree : ∀ x, x ∉ transformWriteKeys →
        EnvManager.transform envTransforms env x = env x := by
      intro x hx
      exact transform_get_ne envTransforms x
        (fun r hr e2 kv hkv hEq => hx (hEq ▸ hW r hr e2 kv hkv)) env
    apply transform_fix
    intro r hr
    rw [envTransforms_stable r hr _ env hagree]
    apply updateMany_fix
    intro kv hkv
    apply transform_get_realized transformWriteKeys kv.1 kv.2 envTransforms hW
      envTransforms_stable
      (fun r2 hr2 e2 kv2 hkv2 hEq =>
        allTransformKvs_consistent kv2 (envTransforms_writes r2 hr2 e2 kv2 hkv2) kv
          (envTransforms_writes r hr env kv hkv) hEq)
      env env (fun x _ => rfl)
    right
    exact ⟨r, hr, kv, hkv, rfl⟩

/-! ## State preservation of the header and library checks -/

/-- One header-loop step never touches the tri-state result. -/
theorem checkIncStep_fHave (ctx : Ctx) (paths : List String)
    (st : LibraryCheck × List String) (hdr : String) :
    ((checkIncStep ctx paths st hdr).1).fHave = st.1.fHave := by
  unfold checkIncStep
  split <;> rfl

/-- The whole header loop never touches the tri-state result. -/
theorem foldl_checkIncStep_fHave (ctx : Ctx) (paths : List String) (l : List String) :
    ∀ st : LibraryCheck × List String,
      ((l.foldl (checkIncStep ctx paths) st).1).fHave = st.1.fHave := by
  induction l with
  | nil => intro st; rfl
  | cons a t ih =>
    intro st
    rw [List.foldl_cons, ih, checkIncStep_fHave]

/-- `checkInc` never changes the tri-state result. -/
theorem checkInc_fHave (pr : LibraryCheck) (ctx : Ctx) :
    ((pr.checkInc ctx).1).fHave = pr.fHave := by
  unfold LibraryCheck.checkInc
  by_cases h : pr.asIncFiles = [] ∧ pr.asAltIncFiles = []
  · simp [h]
  · simp only [h, if_false]
    split
    · exact foldl_checkIncStep_fHave ctx _ _ (pr, [])
    · exact foldl_checkIncStep_fHave ctx _ _ (pr, [])

/-- `checkLib` never changes the tri-state result. -/
theorem checkLib_fHave (pr : LibraryCheck) (ctx : Ctx) :
    ((pr.checkLib ctx).1).fHave = pr.fHave := by
  unfold LibraryCheck.checkLib
  split
  · rfl
  · cases pr.libSearchHit ctx <;> rfl

/-! ## C1: the in-tree vendored short-circuit -/

/-- C1: for an enabled, non-excluded probe with no operator-supplied
custom path and fresh include-path and version state, when the glob for
`src/libs/<name>-*` under the script root yields a match, `performCheck`
sets the tri-state to Present, parses the version from the trailing
numeric suffix of the directory name when one is present, records the
vendored directory (relative to the script root) as the primary include
path, returns True, and never enters the header search, the library
search, or the compile-and-execute harness, counting no errors. -/
theorem performCheck_vendored (ctx : Ctx) (pr : LibraryCheck) (m : String) (rest : List String)
    (fRc : Bool) (sOut : Option String) (cErrs : Nat)
    (hx : targetIn (ctx.env "KBUILD_TARGET") pr.aeTargetsExcluded = false)
    (hd : pr.fDisabled = false)
    (hc : pr.sCustomPath = none)
    (hg : ctx.fs.glob (ospJoin (ospJoin ctx.scriptPath "src/libs") (pr.sName ++ "-*")) = m :: rest)
    (hip : pr.asIncPaths = none) (hv : pr.sVer = none) :
    (pr.performCheck ctx fRc sOut cErrs).probe.fHave = some true ∧
    (pr.performCheck ctx fRc sOut cErrs).probe.sVer = parseTrailingVersion (basenameNorm m) ∧
    (pr.performCheck ctx fRc sOut cErrs).probe.asIncPaths = some [relpath m ctx.scriptPath] ∧
    (pr.performCheck ctx fRc sOut cErrs).ret = true ∧
    (pr.performCheck ctx fRc sOut cErrs).incInvoked = false ∧
    (pr.performCheck ctx fRc sOut cErrs).libInvoked = false ∧
    (pr.performCheck ctx fRc sOut cErrs).harnessInvoked = false ∧
    (pr.performCheck ctx fRc sOut cErrs).errs = 0 := by
  have hm : pr.inTreeMatches ctx = m :: rest := by
    simp [LibraryCheck.inTreeMatches, hc, hg]
  cases hp : parseTrailingVersion (basenameNorm m) with
  | none => simp [LibraryCheck.performCheck, hx, hd, hm, hp, hip, hv]
  | some v => simp [LibraryCheck.performCheck, hx, hd, hm, hp, hip, hv]

/-- Store seeding a Linux build target. -/
def envLinux : Env :=
  fun k =>
    if k = "KBUILD_TARGET" then some "linux"
    else if k = "KBUILD_TARGET_ARCH" then some "amd64" else none

/-- Filesystem containing exactly the vendored directory
`/vbox/src/libs/zlib-1.3.1`. -/
def fsVendored : FS :=
  { isFile := fun _ => false
    isDir := fun p => p == "/vbox/src/libs/zlib-1.3.1"
    glob := fun pat =>
      if pat == "/vbox/src/libs/zlib-*" then ["/vbox/src/libs/zlib-1.3.1"] else []
    walk := fun _ => [] }

/-- Context rooted at `/vbox` over `fsVendored`. -/
def ctxVendored : Ctx :=
  { fs := fsVendored, env := envLinux, scriptPath := "/vbox", gnuType := "x86_64-linux-gnu" }

/-- The `zlib` probe of `g_aoLibs` (configure.py lines 1495-1496). -/
def zlibProbe : LibraryCheck :=
  { sName := "zlib", asIncFiles := ["zlib.h"], asLibFiles := ["libz"],
    aeTargets := [BuildTarget.ANY],
    sCode := some "#include <zlib.h>\nint main() \x7b printf(\"%s\", ZLIB_VERSION); return 0; \x7d\n" }

/-- Witness for C1: the zlib probe with a vendored `zlib-1.3.1` directory
resolves to Present with version `1.3.1` and the relative vendored path,
without invoking any search or the harness. -/
theorem performCheck_vendored_witness :
    (zlibProbe.performCheck ctxVendored false none 0).probe.fHave = some true ∧
    (zlibProbe.performCheck ctxVendored false none 0).probe.sVer = some "1.3.1" ∧
    (zlibProbe.performCheck ctxVendored false none 0).probe.asIncPaths =
      some ["src/libs/zlib-1.3.1"] ∧
    (zlibProbe.performCheck ctxVendored false none 0).harnessInvoked = false := by
  have h := performCheck_vendored ctxVendored zlibProbe "/vbox/src/libs/zlib-1.3.1" [] false none 0
    (by decide) rfl rfl (by decide) rfl rfl
  refine ⟨h.1, ?_, ?_, h.2.2.2.2.2.2.1⟩
  · rw [h.2.1]; decide
  · rw [h.2.2.1]; decide

/-! ## C2: the library search stops at the first match -/

/-- The `xrandr` probe of `g_aoLibs` (configure.py lines 1516-1517),
declaring the two libraries `libXrandr` and `libX11`. -/
def xrandrProbe : LibraryCheck :=
  { sName := "xrandr", asIncFiles := ["X11/extensions/Xrandr.h"],
    asLibFiles := ["libXrandr", "libX11"],
    aeTargets := [BuildTarget.LINUX, BuildTarget.SOLARIS, BuildTarget.BSD],
    sCode := some "#include <X11/Xlib.h>\n#include <X11/extensions/Xrandr.h>\nint main() \x7b Display *dpy = XOpenDisplay(NULL); Window root = RootWindow(dpy, 0); XRRScreenConfiguration *c = XRRGetScreenInfo(dpy, root); printf(\"<found>\"); return 0; \x7d\n" }

/-- Filesystem in which `/usr/lib` exists and holds `libXrandr.a` but no
file matching `libX11`. -/
def fsLibFirstMatch : FS :=
  { isFile := fun p => p == "/usr/lib/libXrandr.a"
    isDir := fun p => p == "/usr/lib"
    glob := fun pat =>
      if pat == "/usr/lib/libXrandr*.a" then ["/usr/lib/libXrandr.a"] else []
    walk := fun _ => [] }

/-- Context rooted at `/vbox` over `fsLibFirstMatch`. -/
def ctxLibFirstMatch : Ctx :=
  { fs := fsLibFirstMatch, env := envLinux, scriptPath := "/vbox", gnuType := "x86_64-linux-gnu" }

/-- C2: evaluated at the failing input — the xrandr probe declaring the
two libraries `libXrandr` and `libX11` on a host where the only library
search path is `/usr/lib` and the only matching file is `libXrandr.a` —
`checkLib` returns True at the first match even though no file matching
`libX11` with either Linux library extension exists in any search path,
so a probe can reach Present without all of its declared libraries being
located. -/
theorem checkLib_first_match_bug :
    xrandrProbe.getLibSearchPaths ctxLibFirstMatch = ["/usr/lib"] ∧
    (xrandrProbe.checkLib ctxLibFirstMatch).2.1 = true ∧
    (xrandrProbe.checkLib ctxLibFirstMatch).1.asLibPaths = some ["/usr/lib"] ∧
    ctxLibFirstMatch.fs.glob "/usr/lib/libX11*.a" = [] ∧
    ctxLibFirstMatch.fs.glob "/usr/lib/libX11*.so" = [] := by
  refine ⟨?_, ?_, ?_, ?_, ?_⟩ <;> decide

/-! ## C4: header found, library missing -/

/-- C4 (amended): for an enabled, applicable probe with no vendored
match, when the header search succeeds and the library search fails,
`performCheck` ends with the tri-state Absent, returns False, never
invokes the compile-and-execute harness, and counts exactly two errors:
one printed by the library search and one by the final
`Library not found` report. -/
theorem performCheck_scenarioD (ctx : Ctx) (pr prA prB : LibraryCheck)
    (fRc : Bool) (sOut : Option String) (cErrs : Nat)
    (hx : targetIn (ctx.env "KBUILD_TARGET") pr.aeTargetsExcluded = false)
    (hd : pr.fDisabled = false)
    (hg : pr.inTreeMatches ctx = [])
    (ht : (targetIn (ctx.env "KBUILD_TARGET") pr.aeTargets
           || pr.aeTargets.contains BuildTarget.ANY) = true)
    (hinc : (pr.setHave (some false)).checkInc ctx = (prA, true, 0))
    (hlib : prA.checkLib ctx = (prB, false, 1)) :
    (pr.performCheck ctx fRc sOut cErrs).probe.fHave = some false ∧
    (pr.performCheck ctx fRc sOut cErrs).ret = false ∧
    (pr.performCheck ctx fRc sOut cErrs).harnessInvoked = false ∧
    (pr.performCheck ctx fRc sOut cErrs).errs = 2 := by
  have hA : prA.fHave = some false := by
    have h2 := checkInc_fHave (pr.setHave (some false)) ctx
    rw [hinc] at h2
    exact h2
  have hB : prB.fHave = some false := by
    have h1 := checkLib_fHave prA ctx
    rw [hlib] at h1
    rw [h1, hA]
  have htg : (pr.setHave (some false)).aeTargets = pr.aeTargets := rfl
  have ht2 : targetIn (ctx.env "KBUILD_TARGET") pr.aeTargets = true ∨
      BuildTarget.ANY ∈ pr.aeTargets := by
    simpa using ht
  rcases ht2 with h | h <;>
    simp [LibraryCheck.performCheck, hx, hd, hg, htg, hinc, hlib, hB, h]

/-- Filesystem holding `/usr/include/zlib.h` with `/usr/lib` present but
empty of matching libraries. -/
def fsHeaderOnly : FS :=
  { isFile := fun p => p == "/usr/include/zlib.h"
    isDir := fun p => p == "/usr/include" || p == "/usr/lib"
    glob := fun _ => []
    walk := fun _ => [] }

/-- Context rooted at `/vbox` over `fsHeaderOnly`. -/
def ctxHeaderOnly : Ctx :=
  { fs := fsHeaderOnly, env := envLinux, scriptPath := "/vbox", gnuType := "x86_64-linux-gnu" }

/-- The zlib probe after the header search found `/usr/include`. -/
def zlibAfterInc : LibraryCheck :=
  { zlibProbe with fHave := some false, asIncPaths := some ["/usr/include"] }

/-- C4 counterexample: with `zlib.h` found but no `libz` file anywhere,
the header search succeeds, the library search fails, `performCheck`
ends Absent and never invokes the harness — but it counts two errors,
not one. -/
theorem performCheck_scenarioD_counterexample :
    ((zlibProbe.setHave (some false)).checkInc ctxHeaderOnly).2.1 = true ∧
    (zlibAfterInc.checkLib ctxHeaderOnly).2.1 = false ∧
    (zlibProbe.performCheck ctxHeaderOnly false none 0).probe.fHave = some false ∧
    (zlibProbe.performCheck ctxHeaderOnly false none 0).harnessInvoked = false ∧
    (zlibProbe.performCheck ctxHeaderOnly false none 0).errs = 2 ∧
    (zlibProbe.performCheck ctxHeaderOnly false none 0).errs ≠ 1 := by
  refine ⟨?_, ?_, ?_, ?_, ?_, ?_⟩ <;> decide

/-- Witness for C4 (amended): the concrete scenario satisfies every
hypothesis of `performCheck_scenarioD` and exhibits the two counted
errors. -/
theorem performCheck_scenarioD_witness :
    (zlibProbe.performCheck ctxHeaderOnly true (some "1.3.1") 0).errs = 2 :=
  (performCheck_scenarioD ctxHeaderOnly zlibProbe zlibAfterInc zlibAfterInc true (some "1.3.1") 0
    (by decide) rfl (by decide) (by decide) (by decide) (by decide)).2.2.2

/-! ## C9: only existing paths are returned -/

/-- C9: every path returned by the include search is a directory that
exists on disk at call time, and every path returned by the library
search exists on disk at call time; candidates failing the existence
check are dropped. -/
theorem searchPaths_exist (ctx : Ctx) (pr : LibraryCheck) :
    (∀ p ∈ pr.getIncSearchPaths ctx, ctx.fs.isDir p = true ∧ pathExists ctx.fs p = true) ∧
    (∀ p ∈ pr.getLibSearchPaths ctx, pathExists ctx.fs p = true) := by
  constructor
  · intro p hp
    simp only [LibraryCheck.getIncSearchPaths] at hp
    have h := (List.mem_filter.mp hp).2
    exact ⟨h, by simp [pathExists, h]⟩
  · intro p hp
    simp only [LibraryCheck.getLibSearchPaths] at hp
    exact (List.mem_filter.mp hp).2

/-- Filesystem in which only `/usr/include` exists. -/
def fsUsrInclude : FS :=
  { isFile := fun _ => false
    isDir := fun p => p == "/usr/include"
    glob := fun _ => []
    walk := fun _ => [] }

/-- Context rooted at `/vbox` over `fsUsrInclude`. -/
def ctxUsrInclude : Ctx :=
  { fs := fsUsrInclude, env := envLinux, scriptPath := "/vbox", gnuType := "x86_64-linux-gnu" }

/-- Witness for C9: `/usr/include` is returned by the include search on
`fsUsrInclude` and indeed exists there. -/
theorem searchPaths_exist_witness :
    pathExists ctxUsrInclude.fs "/usr/include" = true :=
  ((searchPaths_exist ctxUsrInclude zlibProbe).1 "/usr/include" (by decide)).2
